import Mathlib

set_option maxHeartbeats 1000000

/-!
Verification of the GIFify transcoding server.

This file is a shallow embedding of the orchestration core of
`src/server.js`: the filename sanitizer, the artifact-path construction,
the cleanup routine, the quality-preset validation, the two-stage
ffmpeg pipeline of the `/convert` route, the single-stage `/thumbnail`
route, the upload `fileFilter`, and the global error handler.  JavaScript
strings are modelled by Lean `String` (character-wise; the claims under
study do not depend on UTF-16 code-unit subtleties), the filesystem
state of one request by the list of artifact paths currently existing,
and the outcome of each external `ffmpeg` invocation by an explicit
`ExecResult` supplied as an input of the model.
-/

namespace GIFify

/-- Configuration constant `CONFIG.MAX_FILE_SIZE` (server.js line 20). -/
def MAX_FILE_SIZE : Nat := 100 * 1024 * 1024

/-- Configuration constant `CONFIG.FFMPEG_TIMEOUT` in milliseconds (server.js line 21). -/
def FFMPEG_TIMEOUT : Nat := 120000

/-- Configuration constant `CONFIG.ALLOWED_MIME_TYPES` (server.js lines 22-29). -/
def ALLOWED_MIME_TYPES : List String :=
  ["video/mp4", "video/quicktime", "video/x-msvideo",
   "video/x-matroska", "video/webm", "video/mpeg"]

/-- One quality preset: frame rate, output width, palette color cap
(server.js lines 30-34). -/
structure QualityPreset where
  fps : Nat
  scale : Nat
  colors : Nat
deriving DecidableEq

/-- `CONFIG.QUALITY_PRESETS.low`. -/
def lowPreset : QualityPreset := ⟨10, 320, 128⟩

/-- `CONFIG.QUALITY_PRESETS.medium`. -/
def mediumPreset : QualityPreset := ⟨15, 480, 256⟩

/-- `CONFIG.QUALITY_PRESETS.high`. -/
def highPreset : QualityPreset := ⟨20, 640, 256⟩

/-- Membership test for the character class `[a-zA-Z0-9._-]` of the
sanitizer regex (server.js line 70). -/
def isSafeChar (c : Char) : Bool :=
  ('a' ≤ c && c ≤ 'z') || ('A' ≤ c && c ≤ 'Z') || ('0' ≤ c && c ≤ '9')
    || c == '.' || c == '_' || c == '-'

/-- Action of `filename.replace(/[^a-zA-Z0-9._-]/g, '_')` on one character:
characters in the class are kept, everything else becomes the placeholder. -/
def replaceChar (c : Char) : Char := if isSafeChar c then c else '_'

/-- `sanitizeFilename` (server.js lines 69-71): replace every character
outside the class with an underscore.  The regex is a single-character
class with the global flag, so the replacement is character-wise. -/
def sanitizeFilename (s : String) : String :=
  String.mk (s.data.map replaceChar)

theorem isSafeChar_replaceChar (c : Char) : isSafeChar (replaceChar c) = true := by
  unfold replaceChar
  split
  next h => exact h
  next => decide

theorem replaceChar_idem (c : Char) : replaceChar (replaceChar c) = replaceChar c := by
  unfold replaceChar
  split
  next h => simp [h]
  next => decide

/-- Claim C7: `sanitizeFilename` replaces every character outside
`[A-Za-z0-9._-]` with the placeholder `'_'` and keeps the others, so every
character of its output lies in the class; it is a pure total function. -/
theorem sanitizeFilename_spec (s : String) :
    (∀ c ∈ (sanitizeFilename s).data, isSafeChar c = true) ∧
    (∀ i : Nat, (sanitizeFilename s).data[i]? =
      (s.data[i]?).map (fun c => if isSafeChar c then c else '_')) := by
  constructor
  · intro c hc
    have hdata : (sanitizeFilename s).data = s.data.map replaceChar := rfl
    rw [hdata] at hc
    rcases List.mem_map.mp hc with ⟨a, _, rfl⟩
    exact isSafeChar_replaceChar a
  · intro i
    have hdata : (sanitizeFilename s).data = s.data.map replaceChar := rfl
    rw [hdata, List.getElem?_map]
    cases s.data[i]? <;> simp [replaceChar]

/-- Witness for C7 at the concrete input string with a space, a slash and
a dollar sign, all of which get replaced. -/
theorem sanitizeFilename_spec_witness :
    (∀ c ∈ (sanitizeFilename "a b/c$.mp4").data, isSafeChar c = true) ∧
    (∀ i : Nat, (sanitizeFilename "a b/c$.mp4").data[i]? =
      (("a b/c$.mp4" : String).data[i]?).map
        (fun c => if isSafeChar c then c else '_')) :=
  sanitizeFilename_spec "a b/c$.mp4"

/-- Claim C10: `sanitizeFilename` is idempotent, because every character of
its output (the allowed class together with the placeholder underscore) is a
fixed point of the replacement. -/
theorem sanitizeFilename_idempotent (s : String) :
    sanitizeFilename (sanitizeFilename s) = sanitizeFilename s := by
  unfold sanitizeFilename
  apply congrArg
  simp [List.map_map, Function.comp, replaceChar_idem]

/-! ### Artifact paths

`multer.diskStorage` stores each upload under the scratch directory as
`Date.now() + '-' + sanitized original name` (server.js lines 74-82).
The scratch root is `path.join(__dirname, 'uploads')` (line 62); the
`__dirname` prefix is shared by every artifact path, so it is elided and
the scratch root is modelled as the relative directory `uploads`.
`path.join(dir, file)` on these inputs is directory, slash, file. -/

/-- The scratch directory (`uploadDir`, server.js line 62). -/
def uploadDir : String := "uploads"

/-- The stored filename of an upload: millisecond timestamp, dash,
sanitized original name (server.js lines 78-81). -/
def inputFilename (ts : Nat) (originalname : String) : String :=
  Nat.repr ts ++ "-" ++ sanitizeFilename originalname

/-- `req.file.path`: the uploaded file inside the scratch directory. -/
def inputPath (ts : Nat) (originalname : String) : String :=
  uploadDir ++ "/" ++ inputFilename ts originalname

/-- Model of `path.basename(f, path.extname(f))` for a name without
slashes, operating on the reversed character list: drop the last
dot-extension, keeping the name whole when it has no dot or when the
only dot is the leading character (Node treats such a name as having
no extension). -/
def stripLastExtAux (r : List Char) : List Char :=
  match r.dropWhile (fun c => c != '.') with
  | [] => r
  | _ :: stem => if stem.isEmpty then r else stem

/-- `path.basename(f, path.extname(f))`: the filename with its last
extension removed. -/
def dropLastExt (f : String) : String :=
  String.mk (stripLastExtAux f.data.reverse).reverse

/-- The `/convert` output filename (server.js line 212): stored input
filename minus its extension, plus `.gif`. -/
def outputFilename (ts : Nat) (originalname : String) : String :=
  dropLastExt (inputFilename ts originalname) ++ ".gif"

/-- `outputPath` of `/convert` (server.js line 213). -/
def outputPath (ts : Nat) (originalname : String) : String :=
  uploadDir ++ "/" ++ outputFilename ts originalname

/-- `paletteFile` of `/convert` (server.js line 223): a fresh
`Date.now()` reading, distinct from the upload timestamp. -/
def palettePath (paletteTs : Nat) : String :=
  uploadDir ++ "/" ++ ("palette-" ++ Nat.repr paletteTs ++ ".png")

/-- The `/thumbnail` output filename (server.js line 162). -/
def thumbFilename (ts : Nat) (originalname : String) : String :=
  "thumb-" ++ dropLastExt (inputFilename ts originalname) ++ ".jpg"

/-- `thumbnailPath` of `/thumbnail` (server.js line 163). -/
def thumbPath (ts : Nat) (originalname : String) : String :=
  uploadDir ++ "/" ++ thumbFilename ts originalname

/-! ### Decimal rendering

`Date.now()` interpolated into a template literal renders the timestamp
in decimal.  The lemmas below establish what the path-uniqueness
argument needs: the decimal rendering `Nat.repr` consists of digit
characters only, is nonempty, and is injective. -/

/-- The digit string produced by `Nat.toDigitsCore` with a given amount of
fuel, without the accumulator. -/
def decDigits : Nat → Nat → List Char
  | 0, _ => []
  | fuel + 1, n =>
    if n / 10 = 0 then [Nat.digitChar (n % 10)]
    else decDigits fuel (n / 10) ++ [Nat.digitChar (n % 10)]

theorem toDigitsCore_eq_decDigits :
    ∀ (fuel n : Nat) (ds : List Char),
      Nat.toDigitsCore 10 fuel n ds = decDigits fuel n ++ ds := by
  intro fuel
  induction fuel with
  | zero => intro n ds; rfl
  | succ fuel ih =>
    intro n ds
    unfold Nat.toDigitsCore decDigits
    by_cases h : n / 10 = 0
    · simp [h]
    · simp only [h, if_false, ih (n / 10) (Nat.digitChar (n % 10) :: ds)]
      simp

theorem digitChar_isDigit_of_lt : ∀ m : Nat, m < 10 → (Nat.digitChar m).isDigit = true := by
  decide

theorem decDigits_all_digits :
    ∀ (fuel n : Nat), ∀ c ∈ decDigits fuel n, c.isDigit = true := by
  intro fuel
  induction fuel with
  | zero => intro n c hc; simp [decDigits] at hc
  | succ fuel ih =>
    intro n c hc
    unfold decDigits at hc
    have hd : (Nat.digitChar (n % 10)).isDigit = true :=
      digitChar_isDigit_of_lt _ (Nat.mod_lt _ (by omega))
    by_cases h : n / 10 = 0
    · simp [h] at hc; subst hc; exact hd
    · simp only [h, if_false, List.mem_append, List.mem_singleton] at hc
      rcases hc with hc | hc
      · exact ih _ c hc
      · subst hc; exact hd

theorem decDigits_ne_nil (fuel n : Nat) (h : 0 < fuel) : decDigits fuel n ≠ [] := by
  cases fuel with
  | zero => omega
  | succ fuel =>
    unfold decDigits
    by_cases h10 : n / 10 = 0 <;> simp [h10]

/-- Numeric value of a big-endian decimal digit string. -/
def valOfDigits (l : List Char) : Nat :=
  l.foldl (fun a c => 10 * a + (c.toNat - 48)) 0

theorem valOfDigits_append_singleton (l : List Char) (c : Char) :
    valOfDigits (l ++ [c]) = 10 * valOfDigits l + (c.toNat - 48) := by
  unfold valOfDigits
  rw [List.foldl_append]
  rfl

theorem digitChar_val_of_lt : ∀ m : Nat, m < 10 → (Nat.digitChar m).toNat - 48 = m := by
  decide

theorem valOfDigits_decDigits :
    ∀ (fuel n : Nat), n < 10 ^ fuel → valOfDigits (decDigits fuel n) = n := by
  intro fuel
  induction fuel with
  | zero =>
    intro n h
    simp only [pow_zero, Nat.lt_one_iff] at h
    subst h
    rfl
  | succ fuel ih =>
    intro n h
    unfold decDigits
    by_cases h10 : n / 10 = 0
    · have hn : n < 10 := by omega
      have hmod : n % 10 = n := Nat.mod_eq_of_lt hn
      simp [h10, valOfDigits, hmod, digitChar_val_of_lt n hn]
    · simp only [h10, if_false, valOfDigits_append_singleton]
      have hdiv : n / 10 < 10 ^ fuel := by
        rw [Nat.div_lt_iff_lt_mul (by omega : 0 < 10)]
        calc n < 10 ^ (fuel + 1) := h
        _ = 10 ^ fuel * 10 := by rw [Nat.pow_succ]
      rw [ih (n / 10) hdiv, digitChar_val_of_lt _ (Nat.mod_lt _ (by omega))]
      omega

theorem repr_data (n : Nat) : (Nat.repr n).data = decDigits (n + 1) n := by
  show (Nat.toDigits 10 n).asString.data = decDigits (n + 1) n
  unfold Nat.toDigits
  rw [toDigitsCore_eq_decDigits]
  simp [List.asString]

theorem valOfDigits_repr (n : Nat) : valOfDigits (Nat.repr n).data = n := by
  rw [repr_data]
  refine valOfDigits_decDigits (n + 1) n ?_
  calc n < 10 ^ n := Nat.lt_pow_self (by omega) n
  _ ≤ 10 ^ (n + 1) := Nat.pow_le_pow_right (by omega) (Nat.le_succ n)

theorem repr_injective {m n : Nat} (h : Nat.repr m = Nat.repr n) : m = n := by
  have := congrArg (fun s => valOfDigits s.data) h
  simpa [valOfDigits_repr] using this

theorem repr_all_digits (n : Nat) : ∀ c ∈ (Nat.repr n).data, c.isDigit = true := by
  rw [repr_data]
  exact decDigits_all_digits (n + 1) n

theorem repr_head_digit (n : Nat) :
    ∃ c cs, (Nat.repr n).data = c :: cs ∧ c.isDigit = true := by
  have hne : (Nat.repr n).data ≠ [] := by
    rw [repr_data]; exact decDigits_ne_nil (n + 1) n (by omega)
  cases hd : (Nat.repr n).data with
  | nil => exact absurd hd hne
  | cons c cs =>
    refine ⟨c, cs, rfl, ?_⟩
    have := repr_all_digits n
    rw [hd] at this
    exact this c (List.mem_cons_self c cs)

/-! ### Path disequality toolkit -/

/-- Splitting at a separator character is unambiguous when the part before
the separator cannot contain it. -/
theorem append_sep_inj {sep : Char} {a b c d : List Char}
    (ha : ∀ x ∈ a, x.isDigit = true) (hc : ∀ x ∈ c, x.isDigit = true)
    (hsep : sep.isDigit = false) :
    a ++ sep :: b = c ++ sep :: d → a = c ∧ b = d := by
  induction a generalizing c with
  | nil =>
    intro h
    cases c with
    | nil => simpa using h
    | cons y c' =>
      exfalso
      simp only [List.nil_append, List.cons_append, List.cons.injEq] at h
      have : y.isDigit = true := hc y (List.mem_cons_self y c')
      rw [← h.1] at this
      rw [this] at hsep
      cases hsep
  | cons x a' ih =>
    intro h
    cases c with
    | nil =>
      exfalso
      simp only [List.cons_append, List.nil_append, List.cons.injEq] at h
      have : x.isDigit = true := ha x (List.mem_cons_self x a')
      rw [h.1] at this
      rw [this] at hsep
      cases hsep
    | cons y c' =>
      simp only [List.cons_append, List.cons.injEq] at h
      obtain ⟨hxy, hrest⟩ := h
      have ha' : ∀ z ∈ a', z.isDigit = true := fun z hz => ha z (List.mem_cons_of_mem x hz)
      have hc' : ∀ z ∈ c', z.isDigit = true := fun z hz => hc z (List.mem_cons_of_mem y hz)
      obtain ⟨h1, h2⟩ := ih ha' hc' hrest
      exact ⟨by rw [hxy, h1], h2⟩

/-- A list headed by decimal digits never equals one headed by a
non-digit character. -/
theorem repr_head_ne {c : Char} (hc : c.isDigit = false) (t : Nat)
    (B C : List Char) : (Nat.repr t).data ++ B ≠ c :: C := by
  intro h
  obtain ⟨d, ds, hd, hdig⟩ := repr_head_digit t
  rw [hd] at h
  simp only [List.cons_append, List.cons.injEq] at h
  rw [h.1] at hdig
  rw [hdig] at hc
  cases hc

/-- If a dotless digit block followed by a dash is a prefix shape of a
string that ends in a dot-extension split, the part before the dot
retains the digit-dash prefix. -/
theorem dotSplit {A : List Char} (hA : ∀ x ∈ A, x.isDigit = true) :
    ∀ (X Y S : List Char), X ++ '.' :: Y = A ++ '-' :: S →
      ∃ r, X = A ++ '-' :: r := by
  induction A with
  | nil =>
    intro X Y S h
    cases X with
    | nil => simp at h
    | cons x X' =>
      simp only [List.cons_append, List.nil_append, List.cons.injEq] at h
      exact ⟨X', by simp [h.1]⟩
  | cons a A' ih =>
    intro X Y S h
    have hdot : ('.' : Char).isDigit = false := by decide
    cases X with
    | nil =>
      exfalso
      simp only [List.nil_append, List.cons_append, List.cons.injEq] at h
      have : a.isDigit = true := hA a (List.mem_cons_self a A')
      rw [← h.1] at this
      rw [this] at hdot
      cases hdot
    | cons x X' =>
      simp only [List.cons_append, List.cons.injEq] at h
      have hA' : ∀ z ∈ A', z.isDigit = true := fun z hz => hA z (List.mem_cons_of_mem a hz)
      obtain ⟨r, hr⟩ := ih hA' X' Y S h.2
      exact ⟨r, by rw [h.1, hr]; rfl⟩

theorem repr_data_injective {m n : Nat}
    (h : (Nat.repr m).data = (Nat.repr n).data) : m = n := by
  have := congrArg valOfDigits h
  simpa [valOfDigits_repr] using this

theorem inputPath_data (t : Nat) (n : String) :
    (inputPath t n).data =
      "uploads".data ++ '/' :: ((Nat.repr t).data ++ '-' :: (sanitizeFilename n).data) := by
  have hslash : "/".data = ['/'] := rfl
  have hdash : "-".data = ['-'] := rfl
  simp [inputPath, uploadDir, inputFilename, hslash, hdash]

theorem inputFilename_data (t : Nat) (n : String) :
    (inputFilename t n).data = (Nat.repr t).data ++ '-' :: (sanitizeFilename n).data := by
  have hdash : "-".data = ['-'] := rfl
  simp [inputFilename, hdash]

theorem dropLastExt_data_shape (f : String) :
    (dropLastExt f).data = f.data ∨
      ∃ X Y, f.data = X ++ '.' :: Y ∧ (dropLastExt f).data = X := by
  unfold dropLastExt
  cases hdw : f.data.reverse.dropWhile (fun c => c != '.') with
  | nil =>
    left
    simp [stripLastExtAux, hdw]
  | cons x stem =>
    have hx : x = '.' := by
      have h := List.head?_dropWhile_not (fun c => c != '.') f.data.reverse
      rw [hdw] at h
      simpa using h
    by_cases hstem : stem.isEmpty
    · left
      simp [stripLastExtAux, hdw, hstem]
    · right
      refine ⟨stem.reverse,
        (f.data.reverse.takeWhile (fun c => c != '.')).reverse, ?_, ?_⟩
      · have hsplit :=
          List.takeWhile_append_dropWhile (p := fun c => c != '.') (l := f.data.reverse)
        rw [hdw, hx] at hsplit
        have hrev := congrArg List.reverse hsplit
        simp only [List.reverse_append, List.reverse_cons, List.reverse_reverse,
          List.append_assoc, List.singleton_append] at hrev
        exact hrev.symm
      · simp [stripLastExtAux, hdw, hstem]

theorem dropLastExt_input_shape (t : Nat) (n : String) :
    ∃ r, (dropLastExt (inputFilename t n)).data = (Nat.repr t).data ++ '-' :: r := by
  rcases dropLastExt_data_shape (inputFilename t n) with h | ⟨X, Y, hXY, hres⟩
  · exact ⟨(sanitizeFilename n).data, by rw [h, inputFilename_data]⟩
  · rw [inputFilename_data] at hXY
    obtain ⟨r, hr⟩ := dotSplit (repr_all_digits t) X Y _ hXY.symm
    exact ⟨r, by rw [hres, hr]⟩

theorem outputPath_data_shape (t : Nat) (n : String) :
    ∃ r, (outputPath t n).data =
      "uploads".data ++ '/' :: ((Nat.repr t).data ++ '-' :: r) := by
  obtain ⟨r, hr⟩ := dropLastExt_input_shape t n
  refine ⟨r ++ ".gif".data, ?_⟩
  have hslash : "/".data = ['/'] := rfl
  simp [outputPath, uploadDir, outputFilename, hslash, hr]

theorem thumbPath_data_shape (t : Nat) (n : String) :
    ∃ r, (thumbPath t n).data =
      "uploads".data ++ '/' :: ("thumb-".data ++ ((Nat.repr t).data ++ '-' :: r)) := by
  obtain ⟨r, hr⟩ := dropLastExt_input_shape t n
  refine ⟨r ++ ".jpg".data, ?_⟩
  have hslash : "/".data = ['/'] := rfl
  simp [thumbPath, uploadDir, thumbFilename, hslash, hr]

theorem palettePath_data (p : Nat) :
    (palettePath p).data =
      "uploads".data ++ '/' :: ("palette-".data ++ ((Nat.repr p).data ++ '.' :: "png".data)) := by
  have hslash : "/".data = ['/'] := rfl
  have hdot : ".png".data = '.' :: "png".data := rfl
  simp [palettePath, uploadDir, hslash, hdot]

theorem input_ne_input {t1 t2 : Nat} (hne : t1 ≠ t2) (n1 n2 : String) :
    inputPath t1 n1 ≠ inputPath t2 n2 := by
  intro h
  have hd := congrArg String.data h
  rw [inputPath_data, inputPath_data] at hd
  have h1 := List.append_cancel_left hd
  simp only [List.cons.injEq, true_and] at h1
  exact hne (repr_data_injective
    (append_sep_inj (repr_all_digits t1) (repr_all_digits t2) (by decide) h1).1)

theorem input_ne_output {t1 t2 : Nat} (hne : t1 ≠ t2) (n1 n2 : String) :
    inputPath t1 n1 ≠ outputPath t2 n2 := by
  intro h
  obtain ⟨r, hr⟩ := outputPath_data_shape t2 n2
  have hd := congrArg String.data h
  rw [inputPath_data, hr] at hd
  have h1 := List.append_cancel_left hd
  simp only [List.cons.injEq, true_and] at h1
  exact hne (repr_data_injective
    (append_sep_inj (repr_all_digits t1) (repr_all_digits t2) (by decide) h1).1)

theorem output_ne_output {t1 t2 : Nat} (hne : t1 ≠ t2) (n1 n2 : String) :
    outputPath t1 n1 ≠ outputPath t2 n2 := by
  intro h
  obtain ⟨r1, hr1⟩ := outputPath_data_shape t1 n1
  obtain ⟨r2, hr2⟩ := outputPath_data_shape t2 n2
  have hd := congrArg String.data h
  rw [hr1, hr2] at hd
  have h1 := List.append_cancel_left hd
  simp only [List.cons.injEq, true_and] at h1
  exact hne (repr_data_injective
    (append_sep_inj (repr_all_digits t1) (repr_all_digits t2) (by decide) h1).1)

theorem thumb_ne_thumb {t1 t2 : Nat} (hne : t1 ≠ t2) (n1 n2 : String) :
    thumbPath t1 n1 ≠ thumbPath t2 n2 := by
  intro h
  obtain ⟨r1, hr1⟩ := thumbPath_data_shape t1 n1
  obtain ⟨r2, hr2⟩ := thumbPath_data_shape t2 n2
  have hd := congrArg String.data h
  rw [hr1, hr2] at hd
  have h1 := List.append_cancel_left hd
  simp only [List.cons.injEq, true_and] at h1
  have h2 := List.append_cancel_left h1
  exact hne (repr_data_injective
    (append_sep_inj (repr_all_digits t1) (repr_all_digits t2) (by decide) h2).1)

theorem palette_ne_palette {p1 p2 : Nat} (hne : p1 ≠ p2) :
    palettePath p1 ≠ palettePath p2 := by
  intro h
  have hd := congrArg String.data h
  rw [palettePath_data, palettePath_data] at hd
  have h1 := List.append_cancel_left hd
  simp only [List.cons.injEq, true_and] at h1
  have h2 := List.append_cancel_left h1
  exact hne (repr_data_injective
    (append_sep_inj (repr_all_digits p1) (repr_all_digits p2) (by decide) h2).1)

theorem input_ne_palette (t : Nat) (n : String) (p : Nat) :
    inputPath t n ≠ palettePath p := by
  intro h
  have hd := congrArg String.data h
  rw [inputPath_data, palettePath_data] at hd
  have h1 := List.append_cancel_left hd
  simp only [List.cons.injEq, true_and] at h1
  have hpal : "palette-".data ++ ((Nat.repr p).data ++ '.' :: "png".data) =
      'p' :: ("alette-".data ++ ((Nat.repr p).data ++ '.' :: "png".data)) := rfl
  rw [hpal] at h1
  exact repr_head_ne (by decide) t _ _ h1

theorem output_ne_palette (t : Nat) (n : String) (p : Nat) :
    outputPath t n ≠ palettePath p := by
  intro h
  obtain ⟨r, hr⟩ := outputPath_data_shape t n
  have hd := congrArg String.data h
  rw [hr, palettePath_data] at hd
  have h1 := List.append_cancel_left hd
  simp only [List.cons.injEq, true_and] at h1
  have hpal : "palette-".data ++ ((Nat.repr p).data ++ '.' :: "png".data) =
      'p' :: ("alette-".data ++ ((Nat.repr p).data ++ '.' :: "png".data)) := rfl
  rw [hpal] at h1
  exact repr_head_ne (by decide) t _ _ h1

theorem thumb_ne_input (t : Nat) (n : String) (t' : Nat) (n' : String) :
    thumbPath t n ≠ inputPath t' n' := by
  intro h
  obtain ⟨r, hr⟩ := thumbPath_data_shape t n
  have hd := congrArg String.data h
  rw [hr, inputPath_data] at hd
  have h1 := List.append_cancel_left hd
  simp only [List.cons.injEq, true_and] at h1
  have hth : "thumb-".data ++ ((Nat.repr t).data ++ '-' :: r) =
      't' :: ("humb-".data ++ ((Nat.repr t).data ++ '-' :: r)) := rfl
  rw [hth] at h1
  exact repr_head_ne (by decide) t' _ _ h1.symm

theorem thumb_ne_output (t : Nat) (n : String) (t' : Nat) (n' : String) :
    thumbPath t n ≠ outputPath t' n' := by
  intro h
  obtain ⟨r, hr⟩ := thumbPath_data_shape t n
  obtain ⟨r', hr'⟩ := outputPath_data_shape t' n'
  have hd := congrArg String.data h
  rw [hr, hr'] at hd
  have h1 := List.append_cancel_left hd
  simp only [List.cons.injEq, true_and] at h1
  have hth : "thumb-".data ++ ((Nat.repr t).data ++ '-' :: r) =
      't' :: ("humb-".data ++ ((Nat.repr t).data ++ '-' :: r)) := rfl
  rw [hth] at h1
  exact repr_head_ne (by decide) t' _ _ h1.symm

theorem thumb_ne_palette (t : Nat) (n : String) (p : Nat) :
    thumbPath t n ≠ palettePath p := by
  intro h
  obtain ⟨r, hr⟩ := thumbPath_data_shape t n
  have hd := congrArg String.data h
  rw [hr, palettePath_data] at hd
  have h1 := List.append_cancel_left hd
  simp only [List.cons.injEq, true_and] at h1
  have hth : "thumb-".data ++ ((Nat.repr t).data ++ '-' :: r) =
      't' :: ("humb-".data ++ ((Nat.repr t).data ++ '-' :: r)) := rfl
  have hpal : "palette-".data ++ ((Nat.repr p).data ++ '.' :: "png".data) =
      'p' :: ("alette-".data ++ ((Nat.repr p).data ++ '.' :: "png".data)) := rfl
  rw [hth, hpal] at h1
  simp only [List.cons.injEq] at h1
  exact absurd h1.1 (by decide)

/-! ### Cleanup (`cleanupFiles`, server.js lines 110-121)

The filesystem state of one request is the list of artifact paths that
currently exist.  `failing` says for which paths `fs.promises.unlink`
throws; the loop catches, logs and swallows such errors, leaving the
file in place, and continues with the next path. -/

/-- One iteration of the `cleanupFiles` loop: `fs.existsSync(filePath)`
guard, then `unlink` with its error caught and swallowed. -/
def cleanupStep (failing : String → Bool) (fs : List String) (p : String) : List String :=
  if p ∈ fs then (if failing p then fs else fs.filter (fun q => q != p)) else fs

/-- `cleanupFiles(filePaths)`: best-effort, in-order deletion; always
returns (every per-file error is swallowed inside the loop body). -/
def cleanupFiles (failing : String → Bool) (paths : List String) (fs : List String) :
    List String :=
  paths.foldl (cleanupStep failing) fs

theorem mem_of_mem_cleanupStep {failing : String → Bool} {fs : List String}
    {p q : String} (h : q ∈ cleanupStep failing fs p) : q ∈ fs := by
  unfold cleanupStep at h
  split at h
  · split at h
    · exact h
    · exact List.mem_of_mem_filter h
  · exact h

theorem failing_of_self_mem_cleanupStep {failing : String → Bool} {fs : List String}
    {p : String} (h : p ∈ cleanupStep failing fs p) : failing p = true := by
  unfold cleanupStep at h
  split at h
  · split at h
    next hf => exact hf
    next =>
      exfalso
      have := List.of_mem_filter h
      simp at this
  · next hmem =>
    exact absurd h hmem

theorem mem_of_mem_cleanupFiles {failing : String → Bool} {ps : List String} :
    ∀ {fs : List String} {q : String}, q ∈ cleanupFiles failing ps fs → q ∈ fs := by
  induction ps with
  | nil => intro fs q h; exact h
  | cons p ps ih =>
    intro fs q h
    exact mem_of_mem_cleanupStep (ih h)

theorem failing_of_mem_cleanupFiles {failing : String → Bool} {ps : List String} :
    ∀ {fs : List String} {p : String}, p ∈ ps →
      p ∈ cleanupFiles failing ps fs → failing p = true := by
  induction ps with
  | nil => intro fs p h; cases h
  | cons a ps ih =>
    intro fs p hp hmem
    rcases List.mem_cons.mp hp with rfl | hp'
    · exact failing_of_self_mem_cleanupStep (mem_of_mem_cleanupFiles hmem)
    · exact ih hp' hmem

theorem cleanupStep_id_of {failing : String → Bool} {fs : List String} {p : String}
    (h : p ∈ fs → failing p = true) : cleanupStep failing fs p = fs := by
  unfold cleanupStep
  split
  next hmem => simp [h hmem]
  next => rfl

theorem cleanupFiles_id_of {failing : String → Bool} {ps : List String} :
    ∀ {fs : List String}, (∀ p ∈ ps, p ∈ fs → failing p = true) →
      cleanupFiles failing ps fs = fs := by
  induction ps with
  | nil => intro fs _; rfl
  | cons a ps ih =>
    intro fs h
    show cleanupFiles failing ps (cleanupStep failing fs a) = fs
    rw [cleanupStep_id_of (h a (List.mem_cons_self a ps))]
    exact ih fun p hp hm => h p (List.mem_cons_of_mem a hp) hm

/-! ### External process model (`execWithTimeout`, server.js lines 100-107) -/

/-- Outcome of one `execWithTimeout` race: success, nonzero exit with
captured stderr, or the timer firing first. -/
inductive ExecResult where
  | ok
  | exitErr (stderr : String)
  | timedOut
deriving DecidableEq

/-- The `Error.message` seen by the route's catch block when
`execWithTimeout cmd` rejects: `child_process.exec` rejects with
`Command failed: <cmd>\n<stderr>`; the timeout promise rejects with the
fixed message of server.js line 104.  `none` on success. -/
def execMessage (cmd : String) : ExecResult → Option String
  | .ok => none
  | .exitErr stderr => some ("Command failed: " ++ cmd ++ "\n" ++ stderr)
  | .timedOut => some "FFmpeg execution timeout"

/-- Character-list prefix test (helper for the substring model). -/
def startsWithChars : List Char → List Char → Bool
  | _, [] => true
  | [], _ :: _ => false
  | a :: as, b :: bs => a == b && startsWithChars as bs

/-- Character-list substring test (helper for the substring model). -/
def hasSubstr : List Char → List Char → Bool
  | [], pat => pat.isEmpty
  | a :: rest, pat => startsWithChars (a :: rest) pat || hasSubstr rest pat

/-- `message.includes('timeout')`, the `/convert` catch classification
test (server.js line 257). -/
def includesTimeout (msg : String) : Bool :=
  hasSubstr msg.data "timeout".data

/-! ### Quality validation (`/convert`, server.js lines 202-210)

`CONFIG.QUALITY_PRESETS` is a plain object literal, so the property
access `CONFIG.QUALITY_PRESETS[quality]` also reaches the properties it
inherits from `Object.prototype`; for those names the access yields the
inherited function or object, which is truthy, so the
`!CONFIG.QUALITY_PRESETS[quality]` validation check does not fire, and
reading `.fps`, `.scale`, `.colors` off the inherited value yields
`undefined`. -/

/-- Property names every plain object literal inherits from
`Object.prototype` (truthy values under property access). -/
def objectPrototypeKeys : List String :=
  ["constructor", "hasOwnProperty", "isPrototypeOf", "propertyIsEnumerable",
   "toLocaleString", "toString", "valueOf", "__proto__",
   "__defineGetter__", "__defineSetter__", "__lookupGetter__", "__lookupSetter__"]

/-- A truthy result of the property access `CONFIG.QUALITY_PRESETS[q]`:
either an own preset or a value inherited from `Object.prototype`. -/
inductive PresetVal where
  | defined (p : QualityPreset)
  | protoValue
deriving DecidableEq

/-- The truthiness-relevant result of `CONFIG.QUALITY_PRESETS[q]`:
`none` exactly when the access yields `undefined` (falsy), which is when
the 400 branch of server.js lines 203-208 fires. -/
def lookupPreset (q : String) : Option PresetVal :=
  if q = "low" then some (.defined lowPreset)
  else if q = "medium" then some (.defined mediumPreset)
  else if q = "high" then some (.defined highPreset)
  else if q ∈ objectPrototypeKeys then some .protoValue
  else none

/-- `req.body.quality || 'medium'` (server.js line 202): JavaScript `||`
substitutes the default when the field is `undefined` or `''` (the empty
string is the only falsy string). -/
def qualityOrDefault (q : Option String) : String :=
  match q with
  | none => "medium"
  | some s => if s = "" then "medium" else s

/-- Decimal rendering of `preset.fps` in a template literal:
`undefined` when the preset is an inherited prototype value. -/
def fpsStr : PresetVal → String
  | .defined p => Nat.repr p.fps
  | .protoValue => "undefined"

/-- Decimal rendering of `preset.scale` in a template literal. -/
def scaleStr : PresetVal → String
  | .defined p => Nat.repr p.scale
  | .protoValue => "undefined"

/-- Decimal rendering of `preset.colors` in a template literal. -/
def colorsStr : PresetVal → String
  | .defined p => Nat.repr p.colors
  | .protoValue => "undefined"

/-- Stage 1 command string `paletteCmd` (server.js line 226). -/
def paletteCmd (pv : PresetVal) (input palette : String) : String :=
  "ffmpeg -i \"" ++ input ++ "\" -vf \"fps=" ++ fpsStr pv ++ ",scale=" ++ scaleStr pv ++
    ":-1:flags=lanczos,palettegen=max_colors=" ++ colorsStr pv ++ "\" -y \"" ++ palette ++ "\""

/-- Stage 2 command string `convertCmd` (server.js line 230). -/
def convertCmd (pv : PresetVal) (input palette output : String) : String :=
  "ffmpeg -i \"" ++ input ++ "\" -i \"" ++ palette ++ "\" -lavfi \"fps=" ++ fpsStr pv ++
    ",scale=" ++ scaleStr pv ++ ":-1:flags=lanczos[x];[x][1:v]paletteuse\" -y \"" ++
    output ++ "\""

/-- The `/thumbnail` extraction command (server.js line 168). -/
def thumbCmd (input thumb : String) : String :=
  "ffmpeg -i \"" ++ input ++ "\" -ss 00:00:01 -vframes 1 -vf \"scale=320:-1\" \"" ++
    thumb ++ "\""

/-! ### HTTP responses and route handlers -/

/-- The response bodies the server can produce, tagged with their HTTP
status codes. -/
inductive HttpResponse where
  | noFile400
  | badQuality400 (allowed : List String)
  | timeout408 (err details : String)
  | failure500 (err details : String)
  | success200 (path : String)
  | tooLarge413 (err maxSize : String)
  | uploadError400 (err details : String)
  | internalError500 (err details : String)
deriving DecidableEq

/-- HTTP status code of a response. -/
def HttpResponse.status : HttpResponse → Nat
  | noFile400 => 400
  | badQuality400 _ => 400
  | timeout408 _ _ => 408
  | failure500 _ _ => 500
  | success200 _ => 200
  | tooLarge413 _ _ => 413
  | uploadError400 _ _ => 400
  | internalError500 _ _ => 500

/-- The `details` field of an error response body (empty when absent). -/
def HttpResponse.detailsField : HttpResponse → String
  | timeout408 _ d => d
  | failure500 _ d => d
  | uploadError400 _ d => d
  | internalError500 _ d => d
  | _ => ""

/-- The `/convert` catch block classification (server.js lines 256-267):
messages containing `'timeout'` map to 408, everything else to a 500
whose `details` field is the raw `error.message`. -/
def convertCatchResponse (msg : String) : HttpResponse :=
  if includesTimeout msg then
    .timeout408 "Conversion timeout"
      "Video processing took too long. Try a shorter video or lower quality."
  else .failure500 "Video conversion failed" msg

/-- A `/convert` request past the upload middleware, together with the
environment choices the handler reacts to: whether a file was uploaded,
the upload timestamp and original name, the `quality` body field, the
fresh timestamp taken for the palette file, and the outcome of each
ffmpeg stage. -/
structure ConvertReq where
  hasFile : Bool
  ts : Nat
  originalname : String
  bodyQuality : Option String
  paletteTs : Nat
  stage1 : ExecResult
  stage2 : ExecResult

/-- What a route produces: the response, the external commands launched
(in order, with their timeout budgets in ms), and the request's
artifacts still existing in the scratch directory after the response. -/
structure RouteOutcome where
  response : HttpResponse
  trace : List (String × Nat)
  remaining : List String
deriving DecidableEq

/-- The `/convert` route handler (server.js lines 192-269).  The
filesystem state starts with the stored upload; a stage that fails is
modelled as creating no artifact; the success path sends the GIF and then
cleans input, output and palette (line 244); the catch path cleans only
`[inputPath, outputPath]` (line 254 — `paletteFile` is scoped inside the
`try` block and is not in the catch's cleanup list). -/
def convertHandler (failing : String → Bool) (r : ConvertReq) : RouteOutcome :=
  if !r.hasFile then ⟨.noFile400, [], []⟩
  else
    let input := inputPath r.ts r.originalname
    match lookupPreset (qualityOrDefault r.bodyQuality) with
    | none => ⟨.badQuality400 ["low", "medium", "high"], [], [input]⟩
    | some pv =>
      let output := outputPath r.ts r.originalname
      let palette := palettePath r.paletteTs
      let pCmd := paletteCmd pv input palette
      match execMessage pCmd r.stage1 with
      | some msg =>
        ⟨convertCatchResponse msg, [(pCmd, FFMPEG_TIMEOUT / 2)],
          cleanupFiles failing [input, output] [input]⟩
      | none =>
        let cCmd := convertCmd pv input palette output
        match execMessage cCmd r.stage2 with
        | some msg =>
          ⟨convertCatchResponse msg, [(pCmd, FFMPEG_TIMEOUT / 2), (cCmd, FFMPEG_TIMEOUT)],
            cleanupFiles failing [input, output] [input, palette]⟩
        | none =>
          ⟨.success200 output, [(pCmd, FFMPEG_TIMEOUT / 2), (cCmd, FFMPEG_TIMEOUT)],
            cleanupFiles failing [input, output, palette] [input, palette, output]⟩

/-- A `/thumbnail` request past the upload middleware. -/
structure ThumbReq where
  hasFile : Bool
  ts : Nat
  originalname : String
  stage : ExecResult

/-- The `/thumbnail` route handler (server.js lines 152-189): one
extraction command with a fixed 30-second budget; every failure —
including a timeout — lands in the catch block, which cleans both paths
and answers 500 with the raw `error.message` as `details`. -/
def thumbnailHandler (failing : String → Bool) (r : ThumbReq) : RouteOutcome :=
  if !r.hasFile then ⟨.noFile400, [], []⟩
  else
    let input := inputPath r.ts r.originalname
    let thumb := thumbPath r.ts r.originalname
    let cmd := thumbCmd input thumb
    match execMessage cmd r.stage with
    | some msg =>
      ⟨.failure500 "Failed to generate thumbnail" msg, [(cmd, 30000)],
        cleanupFiles failing [input, thumb] [input]⟩
    | none =>
      ⟨.success200 thumb, [(cmd, 30000)],
        cleanupFiles failing [input, thumb] [input, thumb]⟩

/-! ### Upload middleware and global error handler -/

/-- Errors that can reach the global error handler.  Multer produces
`MulterError`s for its own limit violations; a custom `fileFilter`
callback error is passed through unchanged as a plain `Error`. -/
inductive JsError where
  | multerLimitFileSize
  | multerOther (code message : String)
  | plain (message : String)
deriving DecidableEq

/-- The upload `fileFilter` (server.js lines 90-97): accept an
allow-listed declared mimetype, otherwise call back with a plain
`Error` (not a `MulterError`). -/
def fileFilter (mimetype : String) : Option JsError :=
  if mimetype ∈ ALLOWED_MIME_TYPES then none
  else some (.plain ("Invalid file type. Allowed types: " ++
    String.intercalate ", " ALLOWED_MIME_TYPES))

/-- The global error handler (server.js lines 272-298): a `MulterError`
with code `LIMIT_FILE_SIZE` maps to 413, any other `MulterError` to 400,
and every other error — including the `fileFilter` rejection — to 500. -/
def globalErrorHandler : JsError → HttpResponse
  | .multerLimitFileSize => .tooLarge413 "File too large" "100MB"
  | .multerOther _ msg => .uploadError400 "File upload error" msg
  | .plain msg => .internalError500 "Internal server error" msg

/-- A `/convert` request seen from the transport boundary: when the
upload `fileFilter` rejects the declared mimetype, multer stores no file
and the error skips the route handler, landing in the global error
handler with no command launched and no artifact created; otherwise the
route handler runs. -/
def convertRequest (failing : String → Bool) (mimetype : String) (r : ConvertReq) :
    RouteOutcome :=
  match fileFilter mimetype with
  | some e => ⟨globalErrorHandler e, [], []⟩
  | none => convertHandler failing r

/-- The all-unlinks-succeed environment. -/
def noUnlinkFailures : String → Bool := fun _ => false

theorem includesTimeout_fixed_msg : includesTimeout "FFmpeg execution timeout" = true := by
  decide

/-! ### Claim theorems -/

/-- Claim C1, at the failing input: the `/convert` request uploaded at
millisecond 1000 as `a.mp4`, palette timestamp 1001, whose Stage 1
succeeds and whose Stage 2 exits nonzero.  The catch path cleans only the
input and output paths, so the palette artifact `uploads/palette-1001.png`
is still in the scratch directory after the 500 response completes —
against the claim that every existing artifact is released on a failure at
Stage 2. -/
theorem convert_stage2_failure_leaves_palette :
    (convertHandler noUnlinkFailures
        ⟨true, 1000, "a.mp4", none, 1001, .ok, .exitErr "boom"⟩).remaining =
      [palettePath 1001] ∧
    (convertHandler noUnlinkFailures
        ⟨true, 1000, "a.mp4", none, 1001, .ok, .exitErr "boom"⟩).response.status = 500 := by
  constructor
  · decide
  · decide

/-- Claim C2, counterexample: an upload declaring `image/png` (outside the
allow-list) is rejected through the global error handler as a plain error,
so the status is 500 — not a 400-class outcome as claimed. -/
theorem png_upload_surfaces_500 :
    (convertRequest noUnlinkFailures "image/png"
        ⟨true, 1000, "a.mp4", none, 1001, .ok, .ok⟩).response.status = 500 ∧
    ¬(400 ≤ (convertRequest noUnlinkFailures "image/png"
          ⟨true, 1000, "a.mp4", none, 1001, .ok, .ok⟩).response.status ∧
      (convertRequest noUnlinkFailures "image/png"
          ⟨true, 1000, "a.mp4", none, 1001, .ok, .ok⟩).response.status < 500) := by
  constructor
  · decide
  · decide

/-- Claim C2, amended: every upload whose declared MIME type is outside
the allow-list is rejected with status 500 (the `fileFilter` error is a
plain `Error`, not a `MulterError`, so the global error handler's generic
branch answers), no transcoding command is launched and no artifact is
stored. -/
theorem disallowed_mime_rejected_500_no_transcode
    (failing : String → Bool) (m : String) (r : ConvertReq)
    (h : m ∉ ALLOWED_MIME_TYPES) :
    (convertRequest failing m r).response =
      .internalError500 "Internal server error"
        ("Invalid file type. Allowed types: " ++
          String.intercalate ", " ALLOWED_MIME_TYPES) ∧
    (convertRequest failing m r).response.status = 500 ∧
    (convertRequest failing m r).trace = [] ∧
    (convertRequest failing m r).remaining = [] := by
  have hrw : convertRequest failing m r =
      ⟨.internalError500 "Internal server error"
        ("Invalid file type. Allowed types: " ++
          String.intercalate ", " ALLOWED_MIME_TYPES), [], []⟩ := by
    unfold convertRequest fileFilter
    rw [if_neg h]
    rfl
  rw [hrw]
  exact ⟨rfl, rfl, rfl, rfl⟩

/-- Witness for the amended C2 at the concrete mimetype `image/png`. -/
theorem disallowed_mime_rejected_500_no_transcode_witness :
    (convertRequest noUnlinkFailures "image/png"
        ⟨true, 1000, "a.mp4", none, 1001, .ok, .ok⟩).response.status = 500 ∧
    (convertRequest noUnlinkFailures "image/png"
        ⟨true, 1000, "a.mp4", none, 1001, .ok, .ok⟩).trace = [] :=
  ⟨(disallowed_mime_rejected_500_no_transcode noUnlinkFailures "image/png"
      ⟨true, 1000, "a.mp4", none, 1001, .ok, .ok⟩ (by decide)).2.1,
   (disallowed_mime_rejected_500_no_transcode noUnlinkFailures "image/png"
      ⟨true, 1000, "a.mp4", none, 1001, .ok, .ok⟩ (by decide)).2.2.1⟩

/-- Claim C3, counterexample: a `/thumbnail` request whose extraction
stage times out is answered by the route's catch block, which maps every
failure to 500 — the timeout is not surfaced as the distinct 408
outcome claimed for both routes. -/
theorem thumbnail_timeout_surfaces_500 :
    (thumbnailHandler noUnlinkFailures ⟨true, 1000, "a.mp4", .timedOut⟩).response =
      .failure500 "Failed to generate thumbnail" "FFmpeg execution timeout" ∧
    (thumbnailHandler noUnlinkFailures ⟨true, 1000, "a.mp4", .timedOut⟩).response.status =
      500 := by
  constructor
  · decide
  · decide

/-- Claim C3, amended: only `/convert` distinguishes timeouts.  There, a
timeout at either stage is surfaced with status 408, and a nonzero-exit
failure at either stage (whose message does not contain `'timeout'`)
with status 500; on `/thumbnail` every stage failure — timeout or
nonzero exit — is surfaced with status 500. -/
theorem timeout_mapping_per_route
    (failing : String → Bool) (r : ConvertReq) (tr : ThumbReq)
    (hf : r.hasFile = true) (htf : tr.hasFile = true) :
    ((r.stage1 = .timedOut →
        lookupPreset (qualityOrDefault r.bodyQuality) ≠ none →
        (convertHandler failing r).response.status = 408) ∧
     (r.stage1 = .ok → r.stage2 = .timedOut →
        lookupPreset (qualityOrDefault r.bodyQuality) ≠ none →
        (convertHandler failing r).response.status = 408) ∧
     (∀ pv st, lookupPreset (qualityOrDefault r.bodyQuality) = some pv →
        r.stage1 = .exitErr st →
        includesTimeout ("Command failed: " ++
          paletteCmd pv (inputPath r.ts r.originalname) (palettePath r.paletteTs) ++
          "\n" ++ st) = false →
        (convertHandler failing r).response.status = 500) ∧
     (∀ pv st, lookupPreset (qualityOrDefault r.bodyQuality) = some pv →
        r.stage1 = .ok → r.stage2 = .exitErr st →
        includesTimeout ("Command failed: " ++
          convertCmd pv (inputPath r.ts r.originalname) (palettePath r.paletteTs)
            (outputPath r.ts r.originalname) ++
          "\n" ++ st) = false →
        (convertHandler failing r).response.status = 500)) ∧
    ((tr.stage = .timedOut → (thumbnailHandler failing tr).response.status = 500) ∧
     (∀ st, tr.stage = .exitErr st →
        (thumbnailHandler failing tr).response.status = 500)) := by
  refine ⟨⟨?_, ?_, ?_, ?_⟩, ?_, ?_⟩
  · intro h1 hno
    cases hl : lookupPreset (qualityOrDefault r.bodyQuality) with
    | none => exact absurd hl hno
    | some pv =>
      simp [convertHandler, hf, hl, h1, execMessage, convertCatchResponse,
        includesTimeout_fixed_msg, HttpResponse.status]
  · intro h1 h2 hno
    cases hl : lookupPreset (qualityOrDefault r.bodyQuality) with
    | none => exact absurd hl hno
    | some pv =>
      simp [convertHandler, hf, hl, h1, h2, execMessage, convertCatchResponse,
        includesTimeout_fixed_msg, HttpResponse.status]
  · intro pv st hl h1 hmsg
    simp [convertHandler, hf, hl, h1, execMessage, convertCatchResponse, hmsg,
      HttpResponse.status]
  · intro pv st hl h1 h2 hmsg
    simp [convertHandler, hf, hl, h1, h2, execMessage, convertCatchResponse, hmsg,
      HttpResponse.status]
  · intro h1
    simp [thumbnailHandler, htf, h1, execMessage, HttpResponse.status]
  · intro st h1
    simp [thumbnailHandler, htf, h1, execMessage, HttpResponse.status]

/-- Witness for the amended C3: a convert request timing out at Stage 1
gets 408, one whose Stage 2 exits nonzero gets 500, and thumbnail
requests get 500 both for a timeout and for a nonzero exit. -/
theorem timeout_mapping_per_route_witness :
    (convertHandler noUnlinkFailures
        ⟨true, 1000, "a.mp4", none, 1001, .timedOut, .ok⟩).response.status = 408 ∧
    (convertHandler noUnlinkFailures
        ⟨true, 1000, "a.mp4", none, 1001, .ok, .exitErr "bad frame"⟩).response.status =
      500 ∧
    (thumbnailHandler noUnlinkFailures
        ⟨true, 1000, "a.mp4", .timedOut⟩).response.status = 500 ∧
    (thumbnailHandler noUnlinkFailures
        ⟨true, 1000, "a.mp4", .exitErr "bad frame"⟩).response.status = 500 :=
  ⟨(timeout_mapping_per_route noUnlinkFailures
      ⟨true, 1000, "a.mp4", none, 1001, .timedOut, .ok⟩
      ⟨true, 1000, "a.mp4", .timedOut⟩ rfl rfl).1.1 rfl (by decide),
   (timeout_mapping_per_route noUnlinkFailures
      ⟨true, 1000, "a.mp4", none, 1001, .ok, .exitErr "bad frame"⟩
      ⟨true, 1000, "a.mp4", .timedOut⟩ rfl rfl).1.2.2.2
     (.defined mediumPreset) "bad frame" (by decide) rfl rfl (by decide),
   (timeout_mapping_per_route noUnlinkFailures
      ⟨true, 1000, "a.mp4", none, 1001, .timedOut, .ok⟩
      ⟨true, 1000, "a.mp4", .timedOut⟩ rfl rfl).2.1 rfl,
   (timeout_mapping_per_route noUnlinkFailures
      ⟨true, 1000, "a.mp4", none, 1001, .timedOut, .ok⟩
      ⟨true, 1000, "a.mp4", .exitErr "bad frame"⟩ rfl rfl).2.2 "bad frame" rfl⟩

/-- Claim C4, at the failing input: a `/convert` request whose Stage 1
exits nonzero is surfaced as a 500 whose `details` field is the raw
`error.message` of `child_process.exec` — `Command failed: <command>` —
and the command interpolates the input artifact's filesystem path, so the
response body contains that raw path, against the claim that 500-class
bodies never do. -/
theorem convert_failure_details_expose_input_path :
    (convertHandler noUnlinkFailures
        ⟨true, 1000, "a.mp4", none, 1001, .exitErr "bad data", .ok⟩).response.status =
      500 ∧
    hasSubstr
      ((convertHandler noUnlinkFailures
          ⟨true, 1000, "a.mp4", none, 1001, .exitErr "bad data", .ok⟩).response.detailsField).data
      (inputPath 1000 "a.mp4").data = true := by
  constructor
  · decide
  · decide

/-- Claim C5, at the failing input: for `quality = "constructor"` the
property access `CONFIG.QUALITY_PRESETS[quality]` yields the truthy
`Object.prototype` member, so the validation branch does not fire: instead
of the claimed 400 enumerating the allowed names, the pipeline launches
ffmpeg with `fps=undefined` and surfaces the resulting failure as 500. -/
theorem quality_constructor_bypasses_validation :
    (convertHandler noUnlinkFailures
        ⟨true, 1000, "a.mp4", some "constructor", 1001,
          .exitErr "Invalid argument", .ok⟩).response ≠
      .badQuality400 ["low", "medium", "high"] ∧
    (convertHandler noUnlinkFailures
        ⟨true, 1000, "a.mp4", some "constructor", 1001,
          .exitErr "Invalid argument", .ok⟩).response.status = 500 ∧
    (convertHandler noUnlinkFailures
        ⟨true, 1000, "a.mp4", some "constructor", 1001,
          .exitErr "Invalid argument", .ok⟩).trace =
      [(paletteCmd .protoValue (inputPath 1000 "a.mp4") (palettePath 1001),
        FFMPEG_TIMEOUT / 2)] ∧
    hasSubstr (paletteCmd .protoValue (inputPath 1000 "a.mp4") (palettePath 1001)).data
      "fps=undefined".data = true := by
  refine ⟨?_, ?_, ?_, ?_⟩
  · decide
  · decide
  · decide
  · decide

/-- Claim C6, counterexample: two distinct requests — original names
`a?b.mp4` and `a:b.mp4` — arriving in the same `Date.now()` millisecond
receive the same input path, because the sanitizer maps both names to
`a_b.mp4` and the timestamp alone is the disambiguator. -/
theorem distinct_requests_colliding_paths :
    inputPath 1000 "a?b.mp4" = inputPath 1000 "a:b.mp4" ∧
    ("a?b.mp4" : String) ≠ "a:b.mp4" := by
  constructor
  · decide
  · decide

/-- Claim C6, amended: artifact paths of two requests are pairwise
distinct provided the two upload timestamps differ and the two palette
timestamps differ; same-millisecond requests can collide (the
disambiguator is `Date.now()`, a timestamp that is not unique). -/
theorem artifact_paths_distinct_of_distinct_timestamps
    (t1 p1 : Nat) (n1 : String) (t2 p2 : Nat) (n2 : String)
    (ht : t1 ≠ t2) (hp : p1 ≠ p2) :
    (inputPath t1 n1 ≠ inputPath t2 n2) ∧
    (inputPath t1 n1 ≠ palettePath p2) ∧
    (inputPath t1 n1 ≠ outputPath t2 n2) ∧
    (inputPath t1 n1 ≠ thumbPath t2 n2) ∧
    (palettePath p1 ≠ inputPath t2 n2) ∧
    (palettePath p1 ≠ palettePath p2) ∧
    (palettePath p1 ≠ outputPath t2 n2) ∧
    (palettePath p1 ≠ thumbPath t2 n2) ∧
    (outputPath t1 n1 ≠ inputPath t2 n2) ∧
    (outputPath t1 n1 ≠ palettePath p2) ∧
    (outputPath t1 n1 ≠ outputPath t2 n2) ∧
    (outputPath t1 n1 ≠ thumbPath t2 n2) ∧
    (thumbPath t1 n1 ≠ inputPath t2 n2) ∧
    (thumbPath t1 n1 ≠ palettePath p2) ∧
    (thumbPath t1 n1 ≠ outputPath t2 n2) ∧
    (thumbPath t1 n1 ≠ thumbPath t2 n2) :=
  ⟨input_ne_input ht n1 n2,
   input_ne_palette t1 n1 p2,
   input_ne_output ht n1 n2,
   (thumb_ne_input t2 n2 t1 n1).symm,
   (input_ne_palette t2 n2 p1).symm,
   palette_ne_palette hp,
   (output_ne_palette t2 n2 p1).symm,
   (thumb_ne_palette t2 n2 p1).symm,
   (input_ne_output ht.symm n2 n1).symm,
   output_ne_palette t1 n1 p2,
   output_ne_output ht n1 n2,
   (thumb_ne_output t2 n2 t1 n1).symm,
   thumb_ne_input t1 n1 t2 n2,
   thumb_ne_palette t1 n1 p2,
   thumb_ne_output t1 n1 t2 n2,
   thumb_ne_thumb ht n1 n2⟩

/-- Witness for the amended C6 at concrete timestamps 1 ≠ 2, 3 ≠ 4. -/
theorem artifact_paths_distinct_witness :
    inputPath 1 "a.mp4" ≠ inputPath 2 "a.mp4" :=
  (artifact_paths_distinct_of_distinct_timestamps 1 3 "a.mp4" 2 4 "a.mp4"
    (by decide) (by decide)).1

/-- Claim C8: `cleanupFiles` is idempotent and total — running it twice
over the same path set gives the same filesystem state as once; a path
that was never created is skipped without effect; and the unlink-failure
environment never changes either route's response (deletion failures are
swallowed and never alter the primary outcome). -/
theorem cleanup_idempotent_and_safe
    (failing : String → Bool) (ps fs : List String) :
    cleanupFiles failing ps (cleanupFiles failing ps fs) = cleanupFiles failing ps fs ∧
    (∀ p, p ∉ fs → cleanupFiles failing (p :: ps) fs = cleanupFiles failing ps fs) ∧
    (∀ (g : String → Bool) (r : ConvertReq),
      (convertHandler failing r).response = (convertHandler g r).response) ∧
    (∀ (g : String → Bool) (tr : ThumbReq),
      (thumbnailHandler failing tr).response = (thumbnailHandler g tr).response) := by
  refine ⟨?_, ?_, ?_, ?_⟩
  · exact cleanupFiles_id_of fun p hp hm => failing_of_mem_cleanupFiles hp hm
  · intro p hp
    show cleanupFiles failing ps (cleanupStep failing fs p) = cleanupFiles failing ps fs
    rw [cleanupStep_id_of fun hmem => absurd hmem hp]
  · intro g r
    obtain ⟨hasFile, ts, oname, bq, pts, s1, s2⟩ := r
    cases hasFile
    · rfl
    · unfold convertHandler
      cases lookupPreset (qualityOrDefault bq)
      · rfl
      · cases s1 <;> cases s2 <;> rfl
  · intro g tr
    obtain ⟨hasFile, ts, oname, st⟩ := tr
    cases hasFile
    · rfl
    · unfold thumbnailHandler
      cases st <;> rfl

/-- Witness for C8 at a concrete artifact set: input exists, output was
never created, and the palette path is prepended though never created. -/
theorem cleanup_idempotent_and_safe_witness :
    cleanupFiles noUnlinkFailures ["uploads/1-a.mp4", "uploads/1-a.gif"]
        (cleanupFiles noUnlinkFailures ["uploads/1-a.mp4", "uploads/1-a.gif"]
          ["uploads/1-a.mp4"]) =
      cleanupFiles noUnlinkFailures ["uploads/1-a.mp4", "uploads/1-a.gif"]
        ["uploads/1-a.mp4"] ∧
    cleanupFiles noUnlinkFailures
        ("uploads/palette-2.png" :: ["uploads/1-a.mp4", "uploads/1-a.gif"])
        ["uploads/1-a.mp4"] =
      cleanupFiles noUnlinkFailures ["uploads/1-a.mp4", "uploads/1-a.gif"]
        ["uploads/1-a.mp4"] :=
  ⟨(cleanup_idempotent_and_safe noUnlinkFailures
      ["uploads/1-a.mp4", "uploads/1-a.gif"] ["uploads/1-a.mp4"]).1,
   (cleanup_idempotent_and_safe noUnlinkFailures
      ["uploads/1-a.mp4", "uploads/1-a.gif"] ["uploads/1-a.mp4"]).2.1
     "uploads/palette-2.png" (by decide)⟩

/-- Claim C9: within a `/convert` request the palette command (bounded to
half the 120 s budget, i.e. 60 s) is always launched first; the encode
command (bounded to the full budget) is launched exactly when Stage 1
succeeded; and the encode command consumes Stage 1's palette file, whose
path occurs inside it. -/
theorem convert_two_stage_order
    (failing : String → Bool) (r : ConvertReq) (pv : PresetVal)
    (hf : r.hasFile = true)
    (hpv : lookupPreset (qualityOrDefault r.bodyQuality) = some pv) :
    (convertHandler failing r).trace =
      (paletteCmd pv (inputPath r.ts r.originalname) (palettePath r.paletteTs),
        FFMPEG_TIMEOUT / 2) ::
      (if r.stage1 = .ok then
        [(convertCmd pv (inputPath r.ts r.originalname) (palettePath r.paletteTs)
            (outputPath r.ts r.originalname), FFMPEG_TIMEOUT)]
      else []) ∧
    FFMPEG_TIMEOUT / 2 = 60000 ∧
    (∃ pre post : String,
      convertCmd pv (inputPath r.ts r.originalname) (palettePath r.paletteTs)
          (outputPath r.ts r.originalname) =
        pre ++ palettePath r.paletteTs ++ post) := by
  refine ⟨?_, by decide, ?_⟩
  · cases hs1 : r.stage1 with
    | ok =>
      cases hs2 : r.stage2 <;>
        simp [convertHandler, hf, hpv, hs1, hs2, execMessage]
    | exitErr st => simp [convertHandler, hf, hpv, hs1, execMessage]
    | timedOut => simp [convertHandler, hf, hpv, hs1, execMessage]
  · refine ⟨"ffmpeg -i \"" ++ inputPath r.ts r.originalname ++ "\" -i \"",
      "\" -lavfi \"fps=" ++ fpsStr pv ++ ",scale=" ++ scaleStr pv ++
        ":-1:flags=lanczos[x];[x][1:v]paletteuse\" -y \"" ++
        outputPath r.ts r.originalname ++ "\"", ?_⟩
    simp [convertCmd, String.append_assoc]

/-- Witness for C9 at a concrete request whose two stages both succeed. -/
theorem convert_two_stage_order_witness :
    (convertHandler noUnlinkFailures
        ⟨true, 1000, "a.mp4", none, 1001, .ok, .ok⟩).trace =
      (paletteCmd (.defined mediumPreset) (inputPath 1000 "a.mp4") (palettePath 1001),
        FFMPEG_TIMEOUT / 2) ::
      (if (⟨true, 1000, "a.mp4", none, 1001, .ok, .ok⟩ : ConvertReq).stage1 = .ok then
        [(convertCmd (.defined mediumPreset) (inputPath 1000 "a.mp4") (palettePath 1001)
            (outputPath 1000 "a.mp4"), FFMPEG_TIMEOUT)]
      else []) :=
  (convert_two_stage_order noUnlinkFailures
    ⟨true, 1000, "a.mp4", none, 1001, .ok, .ok⟩ (.defined mediumPreset)
    rfl (by decide)).1

end GIFify
